import Mathlib

/-!
Verification of the geckodriver extension-command layer (`src/geckodriver/src/command.rs`).

JSON values are modelled with exact rational numbers standing for the `f64`
values carried by `serde_json`; objects are association lists (as produced by
`serde_json::from_value`, which never presents duplicate keys).  The one
side-effecting decoder (`AddonInstallParameters`, which stages a base64 add-on
payload into a temporary file) is modelled with an explicit environment
(`IOEnv`) supplying the temporary directory, the fresh UUID, and the outcomes
of the file create/write operations, and it returns the list of files written.
-/

/-- A parsed JSON value (`serde_json::Value`), with numbers as exact rationals. -/
inductive Json where
  | null : Json
  | bool (b : Bool) : Json
  | num (q : Rat) : Json
  | str (s : String) : Json
  | arr (items : List Json) : Json
  | obj (fields : List (String × Json)) : Json

/-- Look a key up in a JSON object's field list (first match). -/
def lookupField : List (String × Json) → String → Option Json
  | [], _ => none
  | (k, v) :: rest, key => if k = key then some v else lookupField rest key

/-- `true` iff every key of the field list satisfies `ok` (serde's
`deny_unknown_fields` check). -/
def allKeys (ok : String → Bool) : List (String × Json) → Bool
  | [] => true
  | (k, _) :: rest => ok k && allKeys ok rest

/-- Decode a JSON value as a string (`String::deserialize`). -/
def decodeString : Json → Except String String
  | .str s => .ok s
  | _ => .error "invalid type: expected a string"

/-- Decode a JSON value as a boolean (`bool::deserialize`). -/
def decodeBool : Json → Except String Bool
  | .bool b => .ok b
  | _ => .error "invalid type: expected a boolean"

/-- Decode a JSON value as an `f64` (`f64::deserialize`): any JSON number. -/
def decodeF64 : Json → Except String Rat
  | .num q => .ok q
  | _ => .error "invalid type: expected f64"

/-- Decode an optional `Option<bool>` struct field: absent or `null` is `None`,
a boolean is `Some`, anything else is a type error. -/
def decodeOptBool : Option Json → Except String (Option Bool)
  | none => .ok none
  | some .null => .ok none
  | some (.bool b) => .ok (some b)
  | some _ => .error "invalid type: expected a boolean"

/-- The value of one base64 alphabet character (standard alphabet). -/
def b64Val (c : Char) : Option Nat :=
  if 'A' ≤ c ∧ c ≤ 'Z' then some (c.toNat - 'A'.toNat)
  else if 'a' ≤ c ∧ c ≤ 'z' then some (c.toNat - 'a'.toNat + 26)
  else if '0' ≤ c ∧ c ≤ '9' then some (c.toNat - '0'.toNat + 52)
  else if c = '+' then some 62
  else if c = '/' then some 63
  else none

/-- Decode a base64 character stream four characters at a time; the final
quantum may carry one or two padding characters.  Returns the decoded bytes, or
`none` on any invalid character, misplaced padding, or truncated quantum. -/
def b64DecodeChunks : List Char → Option (List Nat)
  | [] => some []
  | c1 :: c2 :: c3 :: c4 :: rest =>
    match b64Val c1, b64Val c2 with
    | some v1, some v2 =>
      if c3 = '=' then
        if c4 = '=' ∧ rest = [] ∧ v2 % 16 = 0 then
          some [v1 * 4 + v2 / 16]
        else none
      else
        match b64Val c3 with
        | some v3 =>
          if c4 = '=' then
            if rest = [] ∧ v3 % 4 = 0 then
              some [v1 * 4 + v2 / 16, (v2 % 16) * 16 + v3 / 4]
            else none
          else
            match b64Val c4, b64DecodeChunks rest with
            | some v4, some tail =>
              some ([v1 * 4 + v2 / 16, (v2 % 16) * 16 + v3 / 4, (v3 % 4) * 64 + v4] ++ tail)
            | _, _ => none
        | none => none
    | _, _ => none
  | _ => none

/-- `base64::decode` with the standard alphabet and padding. -/
def base64Decode (s : String) : Option (List Nat) :=
  b64DecodeChunks s.data

/-- Canonical add-on install parameters (`AddonInstallParameters`). -/
structure AddonInstallParameters where
  path : String
  temporary : Option Bool
deriving DecidableEq

/-- The strict inline input shape of the untagged helper enum
(`struct Base64 { addon, temporary }`, `deny_unknown_fields`). -/
structure Base64Helper where
  addon : String
  temporary : Option Bool
deriving DecidableEq

/-- The strict path input shape of the untagged helper enum
(`struct Path { path, temporary }`, `deny_unknown_fields`). -/
structure PathHelper where
  path : String
  temporary : Option Bool
deriving DecidableEq

/-- Keys accepted by the inline (`Base64`) shape. -/
def base64KeyOk (k : String) : Bool := k == "addon" || k == "temporary"

/-- Keys accepted by the `Path` shape. -/
def pathKeyOk (k : String) : Bool := k == "path" || k == "temporary"

/-- Strict decode of the inline shape: only an object whose keys are all in
its own field set, with a required string `addon`. -/
def Base64Helper.deserialize : Json → Except String Base64Helper
  | .obj fields =>
    if allKeys base64KeyOk fields then
      match lookupField fields "addon" with
      | some av =>
        match decodeString av with
        | .error e => .error e
        | .ok a =>
          match decodeOptBool (lookupField fields "temporary") with
          | .error e => .error e
          | .ok t => .ok { addon := a, temporary := t }
      | none => .error "missing field addon"
    else .error "unknown field"
  | _ => .error "invalid type: expected struct Base64"

/-- Strict decode of the path shape: only an object whose keys are all in its
own field set, with a required string `path`. -/
def PathHelper.deserialize : Json → Except String PathHelper
  | .obj fields =>
    if allKeys pathKeyOk fields then
      match lookupField fields "path" with
      | some pv =>
        match decodeString pv with
        | .error e => .error e
        | .ok p =>
          match decodeOptBool (lookupField fields "temporary") with
          | .error e => .error e
          | .ok t => .ok { path := p, temporary := t }
      | none => .error "missing field path"
    else .error "unknown field"
  | _ => .error "invalid type: expected struct Path"

/-- The untagged helper enum over the two input shapes; serde tries the
variants in declaration order (`Base64` first, then `Path`). -/
inductive Helper where
  | base64 (b : Base64Helper)
  | path (p : PathHelper)
deriving DecidableEq

/-- Untagged decode: first shape whose strict decode succeeds wins; if both
fail the whole decode fails. -/
def Helper.deserialize (v : Json) : Except String Helper :=
  match Base64Helper.deserialize v with
  | .ok b => .ok (.base64 b)
  | .error _ =>
    match PathHelper.deserialize v with
    | .ok p => .ok (.path p)
    | .error _ => .error "data did not match any variant of untagged enum Helper"

/-- The ambient effects available to the add-on decoder: the process
temporary directory, the freshly generated UUID, and whether the temp-file
create and write operations succeed. -/
structure IOEnv where
  tempDir : String
  uuid : String
  createOk : Bool
  writeOk : Bool
deriving DecidableEq

/-- The staged add-on file path
(`env::temp_dir().join(format!("addon-\x7b\x7d.xpi", Uuid::new_v4()))`). -/
def tempXpiPath (env : IOEnv) : String :=
  env.tempDir ++ "/addon-" ++ env.uuid ++ ".xpi"

/-- `AddonInstallParameters::deserialize`: resolve the untagged helper, then
either pass the path shape through or base64-decode the inline payload and
write it to a fresh temp file.  Returns the canonical parameters together with
the list of `(path, contents)` files written. -/
def AddonInstallParameters.deserialize (env : IOEnv) (v : Json) :
    Except String (AddonInstallParameters × List (String × List Nat)) :=
  match Helper.deserialize v with
  | .error e => .error e
  | .ok (.path d) => .ok ({ path := d.path, temporary := d.temporary }, [])
  | .ok (.base64 d) =>
    match base64Decode d.addon with
    | none => .error "base64 decode error"
    | some content =>
      let p := tempXpiPath env
      if env.createOk then
        if env.writeOk then
          .ok ({ path := p, temporary := d.temporary }, [(p, content)])
        else .error "could not write addon to file"
      else .error "could not create addon file"

/-- Add-on uninstall parameters (`AddonUninstallParameters { id: String }`). -/
structure AddonUninstallParameters where
  id : String
deriving DecidableEq

/-- Derived decode of `AddonUninstallParameters`: an object with a required
string `id`; unknown fields are ignored (serde default behaviour). -/
def AddonUninstallParameters.deserialize : Json → Except String AddonUninstallParameters
  | .obj fields =>
    match lookupField fields "id" with
    | some iv =>
      match decodeString iv with
      | .error e => .error e
      | .ok i => .ok { id := i }
    | none => .error "missing field id"
  | _ => .error "invalid type: expected struct AddonUninstallParameters"

/-- The browsing context (`enum GeckoContext`, lowercase wire tokens). -/
inductive GeckoContext where
  | Content
  | Chrome
deriving DecidableEq

/-- Decode a `GeckoContext` from its lowercase string token. -/
def GeckoContext.deserialize : Json → Except String GeckoContext
  | .str "content" => .ok .Content
  | .str "chrome" => .ok .Chrome
  | .str _ => .error "unknown variant of GeckoContext"
  | _ => .error "invalid type: expected string for GeckoContext"

/-- Context-switch parameters (`GeckoContextParameters { context }`). -/
structure GeckoContextParameters where
  context : GeckoContext
deriving DecidableEq

/-- Derived decode of `GeckoContextParameters`: an object with a required
`context` field; unknown fields are ignored. -/
def GeckoContextParameters.deserialize : Json → Except String GeckoContextParameters
  | .obj fields =>
    match lookupField fields "context" with
    | some cv =>
      match GeckoContext.deserialize cv with
      | .error e => .error e
      | .ok c => .ok { context := c }
    | none => .error "missing field context"
  | _ => .error "invalid type: expected struct GeckoContextParameters"

/-- Anonymous-content locator (`XblLocatorParameters { name, value }`). -/
structure XblLocatorParameters where
  name : String
  value : String
deriving DecidableEq

/-- Derived decode of `XblLocatorParameters`: an object with required string
`name` and `value`; unknown fields are ignored. -/
def XblLocatorParameters.deserialize : Json → Except String XblLocatorParameters
  | .obj fields =>
    match lookupField fields "name" with
    | some nv =>
      match decodeString nv with
      | .error e => .error e
      | .ok n =>
        match lookupField fields "value" with
        | some vv =>
          match decodeString vv with
          | .error e => .error e
          | .ok w => .ok { name := n, value := w }
        | none => .error "missing field value"
    | none => .error "missing field name"
  | _ => .error "invalid type: expected struct XblLocatorParameters"

/-- Page orientation (`enum PrintOrientation`, lowercase wire tokens). -/
inductive PrintOrientation where
  | Landscape
  | Portrait
deriving DecidableEq

/-- Decode a `PrintOrientation` from its lowercase string token. -/
def PrintOrientation.deserialize : Json → Except String PrintOrientation
  | .str "landscape" => .ok .Landscape
  | .str "portrait" => .ok .Portrait
  | .str _ => .error "unknown variant of PrintOrientation"
  | _ => .error "invalid type: expected string for PrintOrientation"

/-- `deserialize_to_positive_f64`: a JSON number that is not negative. -/
def deserialize_to_positive_f64 (v : Json) : Except String Rat :=
  match decodeF64 v with
  | .error e => .error e
  | .ok val =>
    if val < 0 then .error (toString val ++ " is negative")
    else .ok val

/-- `deserialize_to_print_scale_f64`: a JSON number inside `[0.1, 2.0]`. -/
def deserialize_to_print_scale_f64 (v : Json) : Except String Rat :=
  match decodeF64 v with
  | .error e => .error e
  | .ok val =>
    if val < 1/10 ∨ val > 2 then .error (toString val ++ " is outside range 0.1-2")
    else .ok val

/-- Paper size (`PrintPage { width, height }`). -/
structure PrintPage where
  width : Rat
  height : Rat
deriving DecidableEq

/-- `PrintPage::default()`: a width of 21.59 and a height of 27.94. -/
def printPageDefault : PrintPage := { width := 2159/100, height := 2794/100 }

/-- Decode a `PrintPage` (`serde(default)`): each absent field takes its own
default, each present field runs the non-negative validator; unknown fields
are ignored. -/
def PrintPage.deserialize : Json → Except String PrintPage
  | .obj fields =>
    match (match lookupField fields "width" with
           | some v => deserialize_to_positive_f64 v
           | none => .ok printPageDefault.width) with
    | .error e => .error e
    | .ok w =>
      match (match lookupField fields "height" with
             | some v => deserialize_to_positive_f64 v
             | none => .ok printPageDefault.height) with
      | .error e => .error e
      | .ok h => .ok { width := w, height := h }
  | _ => .error "invalid type: expected struct PrintPage"

/-- Page margins (`PrintMargins { top, bottom, left, right }`). -/
structure PrintMargins where
  top : Rat
  bottom : Rat
  left : Rat
  right : Rat
deriving DecidableEq

/-- `PrintMargins::default()`: 1.0 on every side. -/
def printMarginsDefault : PrintMargins := { top := 1, bottom := 1, left := 1, right := 1 }

/-- Decode a `PrintMargins` (`serde(default)`): each absent field takes its
own default, each present field runs the non-negative validator; unknown
fields are ignored. -/
def PrintMargins.deserialize : Json → Except String PrintMargins
  | .obj fields =>
    match (match lookupField fields "top" with
           | some v => deserialize_to_positive_f64 v
           | none => .ok printMarginsDefault.top) with
    | .error e => .error e
    | .ok t =>
      match (match lookupField fields "bottom" with
             | some v => deserialize_to_positive_f64 v
             | none => .ok printMarginsDefault.bottom) with
      | .error e => .error e
      | .ok b =>
        match (match lookupField fields "left" with
               | some v => deserialize_to_positive_f64 v
               | none => .ok printMarginsDefault.left) with
        | .error e => .error e
        | .ok l =>
          match (match lookupField fields "right" with
                 | some v => deserialize_to_positive_f64 v
                 | none => .ok printMarginsDefault.right) with
          | .error e => .error e
          | .ok r => .ok { top := t, bottom := b, left := l, right := r }
  | _ => .error "invalid type: expected struct PrintMargins"

/-- Decode a list of JSON values as strings (`Vec<String>` elements). -/
def decodeStringList : List Json → Except String (List String)
  | [] => .ok []
  | x :: rest =>
    match decodeString x with
    | .error e => .error e
    | .ok s =>
      match decodeStringList rest with
      | .error e => .error e
      | .ok l => .ok (s :: l)

/-- Decode a JSON value as a `Vec<String>`. -/
def decodeStringArray : Json → Except String (List String)
  | .arr xs => decodeStringList xs
  | _ => .error "invalid type: expected a sequence"

/-- Print job parameters (`PrintParameters`, camelCase wire keys). -/
structure PrintParameters where
  orientation : PrintOrientation
  scale : Rat
  background : Bool
  page : PrintPage
  margin : PrintMargins
  page_ranges : List String
  shrink_to_fit : Bool
deriving DecidableEq

/-- `PrintParameters::default()`. -/
def printParametersDefault : PrintParameters :=
  { orientation := .Portrait
    scale := 1
    background := false
    page := printPageDefault
    margin := printMarginsDefault
    page_ranges := []
    shrink_to_fit := true }

/-- Decode a `PrintParameters` (`serde(default, rename_all = "camelCase")`):
each absent field takes its default; present fields run their own decoders
(the scale validator for `scale`, the nested default-filling decoders for
`page` and `margin`); unknown fields are ignored. -/
def PrintParameters.deserialize : Json → Except String PrintParameters
  | .obj fields =>
    match (match lookupField fields "orientation" with
           | some v => PrintOrientation.deserialize v
           | none => .ok printParametersDefault.orientation) with
    | .error e => .error e
    | .ok o =>
      match (match lookupField fields "scale" with
             | some v => deserialize_to_print_scale_f64 v
             | none => .ok printParametersDefault.scale) with
      | .error e => .error e
      | .ok sc =>
        match (match lookupField fields "background" with
               | some v => decodeBool v
               | none => .ok printParametersDefault.background) with
        | .error e => .error e
        | .ok bg =>
          match (match lookupField fields "page" with
                 | some v => PrintPage.deserialize v
                 | none => .ok printParametersDefault.page) with
          | .error e => .error e
          | .ok pg =>
            match (match lookupField fields "margin" with
                   | some v => PrintMargins.deserialize v
                   | none => .ok printParametersDefault.margin) with
            | .error e => .error e
            | .ok mg =>
              match (match lookupField fields "pageRanges" with
                     | some v => decodeStringArray v
                     | none => .ok printParametersDefault.page_ranges) with
              | .error e => .error e
              | .ok pr =>
                match (match lookupField fields "shrinkToFit" with
                       | some v => decodeBool v
                       | none => .ok printParametersDefault.shrink_to_fit) with
                | .error e => .error e
                | .ok sf =>
                  .ok { orientation := o, scale := sc, background := bg,
                        page := pg, margin := mg, page_ranges := pr,
                        shrink_to_fit := sf }
  | _ => .error "invalid type: expected struct PrintParameters"

/-- An element reference (`webdriver::common::WebElement`). -/
structure WebElement where
  id : String
deriving DecidableEq

/-- The WebDriver error statuses used by this layer. -/
inductive ErrorStatus where
  | InvalidArgument
  | UnknownError
deriving DecidableEq

/-- A WebDriver error: a status plus a human-readable message. -/
structure WebDriverError where
  error : ErrorStatus
  message : String
deriving DecidableEq

/-- The extension route identifiers (`enum GeckoExtensionRoute`). -/
inductive GeckoExtensionRoute where
  | GetContext
  | SetContext
  | XblAnonymousChildren
  | XblAnonymousByAttribute
  | InstallAddon
  | UninstallAddon
  | TakeFullScreenshot
  | Print
deriving DecidableEq

/-- The resolved extension commands (`enum GeckoExtensionCommand`). -/
inductive GeckoExtensionCommand where
  | GetContext
  | SetContext (p : GeckoContextParameters)
  | XblAnonymousChildren (e : WebElement)
  | XblAnonymousByAttribute (e : WebElement) (l : XblLocatorParameters)
  | InstallAddon (p : AddonInstallParameters)
  | UninstallAddon (p : AddonUninstallParameters)
  | TakeFullScreenshot
  | Print (p : PrintParameters)
deriving DecidableEq

/-- The command wrapper handed to the executor
(`WebDriverCommand::Extension`). -/
inductive WebDriverCommand where
  | Extension (cmd : GeckoExtensionCommand)
deriving DecidableEq

/-- The named path parameters extracted by the URL matcher
(`webdriver::Parameters`). -/
def Parameters := List (String × String)

/-- `params.get(key)`, first match. -/
def Parameters.get (params : Parameters) (key : String) : Option String :=
  match params with
  | [] => none
  | (k, v) :: rest => if k = key then some v else Parameters.get rest key

/-- `GeckoExtensionRoute::command`: turn a matched route, its path
parameters, and the JSON body into a command or a `WebDriverError`.  Body
decode errors surface as `InvalidArgument` with the decoder's message; the
missing-path-parameter check on the Xbl routes runs before body decoding. -/
def GeckoExtensionRoute.command (route : GeckoExtensionRoute) (params : Parameters)
    (body : Json) (env : IOEnv) : Except WebDriverError WebDriverCommand :=
  match route with
  | .GetContext => .ok (.Extension .GetContext)
  | .SetContext =>
    match GeckoContextParameters.deserialize body with
    | .ok p => .ok (.Extension (.SetContext p))
    | .error e => .error { error := .InvalidArgument, message := e }
  | .XblAnonymousChildren =>
    match params.get "elementId" with
    | none => .error { error := .InvalidArgument, message := "Missing elementId parameter" }
    | some eid => .ok (.Extension (.XblAnonymousChildren { id := eid }))
  | .XblAnonymousByAttribute =>
    match params.get "elementId" with
    | none => .error { error := .InvalidArgument, message := "Missing elementId parameter" }
    | some eid =>
      match XblLocatorParameters.deserialize body with
      | .ok l => .ok (.Extension (.XblAnonymousByAttribute { id := eid } l))
      | .error e => .error { error := .InvalidArgument, message := e }
  | .InstallAddon =>
    match AddonInstallParameters.deserialize env body with
    | .ok (p, _) => .ok (.Extension (.InstallAddon p))
    | .error e => .error { error := .InvalidArgument, message := e }
  | .UninstallAddon =>
    match AddonUninstallParameters.deserialize body with
    | .ok p => .ok (.Extension (.UninstallAddon p))
    | .error e => .error { error := .InvalidArgument, message := e }
  | .TakeFullScreenshot => .ok (.Extension .TakeFullScreenshot)
  | .Print =>
    match PrintParameters.deserialize body with
    | .ok p => .ok (.Extension (.Print p))
    | .error e => .error { error := .InvalidArgument, message := e }

/-- Serialize an `Option<bool>` field value (`None` is JSON `null`). -/
def optBoolToJson : Option Bool → Json
  | none => .null
  | some b => .bool b

/-- Derived `Serialize` of `GeckoContext`. -/
def GeckoContext.toJson : GeckoContext → Json
  | .Content => .str "content"
  | .Chrome => .str "chrome"

/-- Derived `Serialize` of `GeckoContextParameters`. -/
def GeckoContextParameters.toJson (p : GeckoContextParameters) : Json :=
  .obj [("context", p.context.toJson)]

/-- Derived `Serialize` of `XblLocatorParameters`. -/
def XblLocatorParameters.toJson (p : XblLocatorParameters) : Json :=
  .obj [("name", .str p.name), ("value", .str p.value)]

/-- Derived `Serialize` of `AddonInstallParameters` (the canonical form:
always the `path` representation). -/
def AddonInstallParameters.toJson (p : AddonInstallParameters) : Json :=
  .obj [("path", .str p.path), ("temporary", optBoolToJson p.temporary)]

/-- Derived `Serialize` of `AddonUninstallParameters`. -/
def AddonUninstallParameters.toJson (p : AddonUninstallParameters) : Json :=
  .obj [("id", .str p.id)]

/-- Derived `Serialize` of `PrintOrientation`. -/
def PrintOrientation.toJson : PrintOrientation → Json
  | .Landscape => .str "landscape"
  | .Portrait => .str "portrait"

/-- Derived `Serialize` of `PrintParameters` (camelCase wire keys). -/
def PrintParameters.toJson (p : PrintParameters) : Json :=
  .obj [("orientation", p.orientation.toJson),
        ("scale", .num p.scale),
        ("background", .bool p.background),
        ("page", .obj [("width", .num p.page.width), ("height", .num p.page.height)]),
        ("margin", .obj [("top", .num p.margin.top), ("bottom", .num p.margin.bottom),
                         ("left", .num p.margin.left), ("right", .num p.margin.right)]),
        ("pageRanges", .arr (p.page_ranges.map .str)),
        ("shrinkToFit", .bool p.shrink_to_fit)]

/-- `serde_json::to_value` for each payload type: serialization of these
plain struct/enum payloads never fails. -/
def serializeGeckoContextParameters (p : GeckoContextParameters) : Except String Json := .ok p.toJson

/-- `serde_json::to_value` for `XblLocatorParameters`. -/
def serializeXblLocatorParameters (p : XblLocatorParameters) : Except String Json := .ok p.toJson

/-- `serde_json::to_value` for `AddonInstallParameters`. -/
def serializeAddonInstallParameters (p : AddonInstallParameters) : Except String Json := .ok p.toJson

/-- `serde_json::to_value` for `AddonUninstallParameters`. -/
def serializeAddonUninstallParameters (p : AddonUninstallParameters) : Except String Json := .ok p.toJson

/-- `serde_json::to_value` for `PrintParameters`. -/
def serializePrintParameters (p : PrintParameters) : Except String Json := .ok p.toJson

/-- Model of `Result::unwrap` on a serialization result: a panic is an
`Except.error`. -/
def unwrapToValue : Except String Json → Except String (Option Json)
  | .ok v => .ok (some v)
  | .error e => .error ("panic: " ++ e)

/-- `GeckoExtensionCommand::parameters_json`: the optional JSON payload of a
resolved command; the `Except` layer records whether the internal `unwrap`
panics. -/
def GeckoExtensionCommand.parameters_json : GeckoExtensionCommand → Except String (Option Json)
  | .GetContext => .ok none
  | .InstallAddon x => unwrapToValue (serializeAddonInstallParameters x)
  | .SetContext x => unwrapToValue (serializeGeckoContextParameters x)
  | .UninstallAddon x => unwrapToValue (serializeAddonUninstallParameters x)
  | .XblAnonymousByAttribute _ x => unwrapToValue (serializeXblLocatorParameters x)
  | .XblAnonymousChildren _ => .ok none
  | .TakeFullScreenshot => .ok none
  | .Print x => unwrapToValue (serializePrintParameters x)

/-- A JSON-object field list that decodes as a present-or-absent optional
rational field. -/
def optNumField (k : String) : Option Rat → List (String × Json)
  | none => []
  | some q => [(k, .num q)]

/-- The optional `temporary` wire field. -/
def optTempField : Option Bool → List (String × Json)
  | none => []
  | some b => [("temporary", .bool b)]

theorem lookupField_append_ne (fields : List (String × Json)) (k : String) (j : Json)
    (key : String) (h : key ≠ k) :
    lookupField (fields ++ [(k, j)]) key = lookupField fields key := by
  induction fields with
  | nil =>
    simp only [List.nil_append, lookupField]
    rw [if_neg (fun hk => h hk.symm)]
  | cons p rest ih =>
    obtain ⟨k1, v1⟩ := p
    by_cases hk : k1 = key
    · simp [lookupField, hk]
    · simp [lookupField, hk, ih]

theorem allKeys_append_single (ok : String → Bool) (fields : List (String × Json))
    (k : String) (j : Json) :
    allKeys ok (fields ++ [(k, j)]) = (allKeys ok fields && ok k) := by
  induction fields with
  | nil => simp [allKeys]
  | cons p rest ih =>
    obtain ⟨k1, v1⟩ := p
    simp [allKeys, ih, Bool.and_assoc]

theorem allKeys_lookup (ok : String → Bool) (fields : List (String × Json))
    (key : String) (v : Json) (h : lookupField fields key = some v)
    (hall : allKeys ok fields = true) : ok key = true := by
  induction fields with
  | nil => simp [lookupField] at h
  | cons p rest ih =>
    obtain ⟨k1, v1⟩ := p
    rw [allKeys, Bool.and_eq_true] at hall
    rw [lookupField] at h
    by_cases hk : k1 = key
    · subst hk; exact hall.1
    · rw [if_neg hk] at h; exact ih h hall.2

theorem base64Helper_err_of_allKeys_false (fields : List (String × Json))
    (h : allKeys base64KeyOk fields = false) :
    Base64Helper.deserialize (.obj fields) = .error "unknown field" := by
  simp [Base64Helper.deserialize, h]

theorem pathHelper_err_of_allKeys_false (fields : List (String × Json))
    (h : allKeys pathKeyOk fields = false) :
    PathHelper.deserialize (.obj fields) = .error "unknown field" := by
  simp [PathHelper.deserialize, h]

theorem base64Helper_err_of_missing (fields : List (String × Json))
    (h : lookupField fields "addon" = none) :
    ∃ e, Base64Helper.deserialize (.obj fields) = .error e := by
  cases hb : allKeys base64KeyOk fields <;> simp [Base64Helper.deserialize, hb, h]

theorem pathHelper_err_of_missing (fields : List (String × Json))
    (h : lookupField fields "path" = none) :
    ∃ e, PathHelper.deserialize (.obj fields) = .error e := by
  cases hb : allKeys pathKeyOk fields <;> simp [PathHelper.deserialize, hb, h]

theorem addonInstall_err_of_helpers (env : IOEnv) (v : Json)
    (h1 : ∃ e, Base64Helper.deserialize v = .error e)
    (h2 : ∃ e, PathHelper.deserialize v = .error e) :
    (AddonInstallParameters.deserialize env v).isOk = false := by
  obtain ⟨e1, h1⟩ := h1
  obtain ⟨e2, h2⟩ := h2
  simp [AddonInstallParameters.deserialize, Helper.deserialize, h1, h2, Except.isOk,
        Except.toBool]

theorem positive_f64_ok_of_nonneg (q : Rat) (h : 0 ≤ q) :
    deserialize_to_positive_f64 (.num q) = .ok q := by
  simp only [deserialize_to_positive_f64, decodeF64]
  rw [if_neg (not_lt.mpr h)]

theorem positive_f64_ok_nonneg (v : Json) (r : Rat)
    (h : deserialize_to_positive_f64 v = .ok r) : 0 ≤ r := by
  cases v <;> simp only [deserialize_to_positive_f64, decodeF64] at h <;>
    try exact absurd h (by simp)
  split at h
  · simp at h
  · rename_i hq
    rw [Except.ok.injEq] at h
    subst h
    exact not_lt.mp hq

theorem print_scale_ok_of_range (q : Rat) (h1 : 1/10 ≤ q) (h2 : q ≤ 2) :
    deserialize_to_print_scale_f64 (.num q) = .ok q := by
  have hc : ¬(q < 1/10 ∨ q > 2) := by
    rintro (h | h) <;> linarith
  simp only [deserialize_to_print_scale_f64, decodeF64]
  rw [if_neg hc]

theorem print_scale_ok_range (v : Json) (r : Rat)
    (h : deserialize_to_print_scale_f64 v = .ok r) : 1/10 ≤ r ∧ r ≤ 2 := by
  cases v with
  | num q =>
    simp only [deserialize_to_print_scale_f64, decodeF64] at h
    split at h
    · simp at h
    · rename_i hq
      push_neg at hq
      rw [Except.ok.injEq] at h
      subst h
      exact hq
  | null => simp [deserialize_to_print_scale_f64, decodeF64] at h
  | bool b => simp [deserialize_to_print_scale_f64, decodeF64] at h
  | str s => simp [deserialize_to_print_scale_f64, decodeF64] at h
  | arr l => simp [deserialize_to_print_scale_f64, decodeF64] at h
  | obj fs => simp [deserialize_to_print_scale_f64, decodeF64] at h

theorem decodeStringList_map (l : List String) :
    decodeStringList (l.map Json.str) = .ok l := by
  induction l with
  | nil => rfl
  | cons s rest ih => simp [decodeStringList, decodeString, ih]

theorem printPage_ok_nonneg (j : Json) (pg : PrintPage)
    (h : PrintPage.deserialize j = .ok pg) : 0 ≤ pg.width ∧ 0 ≤ pg.height := by
  cases j with
  | obj fields =>
    simp only [PrintPage.deserialize] at h
    split at h
    · simp at h
    · rename_i w hw
      split at h
      · simp at h
      · rename_i hgt hh
        rw [Except.ok.injEq] at h
        subst h
        constructor
        · split at hw
          · exact positive_f64_ok_nonneg _ _ hw
          · rw [Except.ok.injEq] at hw
            subst hw
            norm_num [printPageDefault]
        · split at hh
          · exact positive_f64_ok_nonneg _ _ hh
          · rw [Except.ok.injEq] at hh
            subst hh
            norm_num [printPageDefault]
  | null => simp [PrintPage.deserialize] at h
  | bool b => simp [PrintPage.deserialize] at h
  | num q => simp [PrintPage.deserialize] at h
  | str s => simp [PrintPage.deserialize] at h
  | arr l => simp [PrintPage.deserialize] at h

theorem printMargins_ok_nonneg (j : Json) (mg : PrintMargins)
    (h : PrintMargins.deserialize j = .ok mg) :
    0 ≤ mg.top ∧ 0 ≤ mg.bottom ∧ 0 ≤ mg.left ∧ 0 ≤ mg.right := by
  cases j with
  | obj fields =>
    simp only [PrintMargins.deserialize] at h
    split at h
    · simp at h
    · rename_i t ht
      split at h
      · simp at h
      · rename_i b hb
        split at h
        · simp at h
        · rename_i l hl
          split at h
          · simp at h
          · rename_i r hr
            rw [Except.ok.injEq] at h
            subst h
            refine ⟨?_, ?_, ?_, ?_⟩
            · split at ht
              · exact positive_f64_ok_nonneg _ _ ht
              · rw [Except.ok.injEq] at ht
                subst ht
                norm_num [printMarginsDefault]
            · split at hb
              · exact positive_f64_ok_nonneg _ _ hb
              · rw [Except.ok.injEq] at hb
                subst hb
                norm_num [printMarginsDefault]
            · split at hl
              · exact positive_f64_ok_nonneg _ _ hl
              · rw [Except.ok.injEq] at hl
                subst hl
                norm_num [printMarginsDefault]
            · split at hr
              · exact positive_f64_ok_nonneg _ _ hr
              · rw [Except.ok.injEq] at hr
                subst hr
                norm_num [printMarginsDefault]
  | null => simp [PrintMargins.deserialize] at h
  | bool b => simp [PrintMargins.deserialize] at h
  | num q => simp [PrintMargins.deserialize] at h
  | str s => simp [PrintMargins.deserialize] at h
  | arr l => simp [PrintMargins.deserialize] at h

theorem printParameters_ok_bounds (j : Json) (p : PrintParameters)
    (h : PrintParameters.deserialize j = .ok p) :
    (1/10 ≤ p.scale ∧ p.scale ≤ 2) ∧ (0 ≤ p.page.width ∧ 0 ≤ p.page.height) ∧
    (0 ≤ p.margin.top ∧ 0 ≤ p.margin.bottom ∧ 0 ≤ p.margin.left ∧ 0 ≤ p.margin.right) := by
  cases j with
  | obj fields =>
    simp only [PrintParameters.deserialize] at h
    split at h
    · simp at h
    · rename_i o ho
      split at h
      · simp at h
      · rename_i sc hsc
        split at h
        · simp at h
        · rename_i bg hbg
          split at h
          · simp at h
          · rename_i pg hpg
            split at h
            · simp at h
            · rename_i mg hmg
              split at h
              · simp at h
              · rename_i pr hpr
                split at h
                · simp at h
                · rename_i sf hsf
                  rw [Except.ok.injEq] at h
                  subst h
                  refine ⟨?_, ?_, ?_⟩
                  · split at hsc
                    · exact print_scale_ok_range _ _ hsc
                    · rw [Except.ok.injEq] at hsc
                      subst hsc
                      norm_num [printParametersDefault]
                  · split at hpg
                    · exact printPage_ok_nonneg _ _ hpg
                    · rw [Except.ok.injEq] at hpg
                      subst hpg
                      norm_num [printParametersDefault, printPageDefault]
                  · split at hmg
                    · exact printMargins_ok_nonneg _ _ hmg
                    · rw [Except.ok.injEq] at hmg
                      subst hmg
                      norm_num [printParametersDefault, printMarginsDefault]
  | null => simp [PrintParameters.deserialize] at h
  | bool b => simp [PrintParameters.deserialize] at h
  | num q => simp [PrintParameters.deserialize] at h
  | str s => simp [PrintParameters.deserialize] at h
  | arr l => simp [PrintParameters.deserialize] at h

theorem printParameters_encode_decode (p : PrintParameters)
    (hs1 : 1/10 ≤ p.scale) (hs2 : p.scale ≤ 2)
    (hw : 0 ≤ p.page.width) (hh : 0 ≤ p.page.height)
    (ht : 0 ≤ p.margin.top) (hb : 0 ≤ p.margin.bottom)
    (hl : 0 ≤ p.margin.left) (hr : 0 ≤ p.margin.right) :
    PrintParameters.deserialize p.toJson = .ok p := by
  obtain ⟨o, s, b, ⟨pw, ph⟩, ⟨mt, mb, ml, mr⟩, pr, sf⟩ := p
  simp only at hs1 hs2 hw hh ht hb hl hr
  cases o <;>
    simp [PrintParameters.toJson, PrintParameters.deserialize, lookupField,
          PrintOrientation.toJson, PrintOrientation.deserialize,
          PrintPage.deserialize, PrintMargins.deserialize, decodeBool,
          decodeStringArray, decodeStringList_map,
          print_scale_ok_of_range s hs1 hs2,
          positive_f64_ok_of_nonneg pw hw, positive_f64_ok_of_nonneg ph hh,
          positive_f64_ok_of_nonneg mt ht, positive_f64_ok_of_nonneg mb hb,
          positive_f64_ok_of_nonneg ml hl, positive_f64_ok_of_nonneg mr hr]

/-- C1: decoding `AddonInstallParameters` fails for every JSON object that
carries both the `path` and `addon` keys (with or without `temporary`), for
every JSON object that carries neither (including the empty object and an
object with only `temporary`), and for JSON `null`; no canonical value is
produced in any of these cases. -/
theorem addonInstall_shape_selection_fails :
    (∀ (env : IOEnv) (fields : List (String × Json)),
        (lookupField fields "path").isSome = true →
        (lookupField fields "addon").isSome = true →
        (AddonInstallParameters.deserialize env (.obj fields)).isOk = false)
  ∧ (∀ (env : IOEnv) (fields : List (String × Json)),
        lookupField fields "path" = none →
        lookupField fields "addon" = none →
        (AddonInstallParameters.deserialize env (.obj fields)).isOk = false)
  ∧ (∀ env : IOEnv, (AddonInstallParameters.deserialize env .null).isOk = false) := by
  refine ⟨?_, ?_, ?_⟩
  · intro env fields h1 h2
    rw [Option.isSome_iff_exists] at h1 h2
    obtain ⟨pv, h1⟩ := h1
    obtain ⟨av, h2⟩ := h2
    apply addonInstall_err_of_helpers
    · refine ⟨"unknown field", base64Helper_err_of_allKeys_false fields ?_⟩
      cases hall : allKeys base64KeyOk fields
      · rfl
      · have := allKeys_lookup base64KeyOk fields "path" pv h1 hall
        simp [base64KeyOk] at this
    · refine ⟨"unknown field", pathHelper_err_of_allKeys_false fields ?_⟩
      cases hall : allKeys pathKeyOk fields
      · rfl
      · have := allKeys_lookup pathKeyOk fields "addon" av h2 hall
        simp [pathKeyOk] at this
  · intro env fields h1 h2
    exact addonInstall_err_of_helpers env _
      (base64Helper_err_of_missing fields h2) (pathHelper_err_of_missing fields h1)
  · intro env
    rfl

/-- C1 witness: the empty object, an object with only `temporary`, and an
object with both `path` and `addon` all fail to decode. -/
theorem addonInstall_shape_selection_fails_witness :
    (AddonInstallParameters.deserialize ⟨"/tmp", "u", true, true⟩
      (.obj [("path", .str "/path/to.xpi"), ("addon", .str "aGVsbG8="),
             ("temporary", .bool true)])).isOk = false
  ∧ (AddonInstallParameters.deserialize ⟨"/tmp", "u", true, true⟩ (.obj [])).isOk = false
  ∧ (AddonInstallParameters.deserialize ⟨"/tmp", "u", true, true⟩
      (.obj [("temporary", .bool true)])).isOk = false := by
  refine ⟨?_, ?_, ?_⟩
  · exact addonInstall_shape_selection_fails.1 ⟨"/tmp", "u", true, true⟩
      [("path", .str "/path/to.xpi"), ("addon", .str "aGVsbG8="), ("temporary", .bool true)]
      (by decide) (by decide)
  · exact addonInstall_shape_selection_fails.2.1 ⟨"/tmp", "u", true, true⟩ [] rfl rfl
  · exact addonInstall_shape_selection_fails.2.1 ⟨"/tmp", "u", true, true⟩
      [("temporary", .bool true)] rfl rfl

/-- C2: for every base64 string accepted by the decoder, decoding
`{"addon": B}` (optionally with a boolean `temporary`) succeeds when the
temp-file create and write succeed, the canonical `path` is the fresh
`addon-<uuid>.xpi` file in the process temporary directory, the file written
there holds exactly the base64-decoded bytes of `B`, and `temporary` is
carried through unchanged; decoding fails when `B` is not valid base64, or
when the file cannot be created or written. -/
theorem addonInstall_base64_resolution :
    ∀ (env : IOEnv) (B : String) (t : Option Bool),
      (∀ bytes, base64Decode B = some bytes → env.createOk = true → env.writeOk = true →
        AddonInstallParameters.deserialize env (.obj (("addon", .str B) :: optTempField t)) =
          .ok ({ path := tempXpiPath env, temporary := t }, [(tempXpiPath env, bytes)]))
      ∧ (base64Decode B = none →
          (AddonInstallParameters.deserialize env
            (.obj (("addon", .str B) :: optTempField t))).isOk = false)
      ∧ (env.createOk = false →
          (AddonInstallParameters.deserialize env
            (.obj (("addon", .str B) :: optTempField t))).isOk = false)
      ∧ (env.writeOk = false →
          (AddonInstallParameters.deserialize env
            (.obj (("addon", .str B) :: optTempField t))).isOk = false) := by
  intro env B t
  have hb : Base64Helper.deserialize (.obj (("addon", .str B) :: optTempField t)) =
      .ok { addon := B, temporary := t } := by
    cases t <;> rfl
  refine ⟨?_, ?_, ?_, ?_⟩
  · intro bytes h hc hw
    simp [AddonInstallParameters.deserialize, Helper.deserialize, hb, h, hc, hw]
  · intro h
    simp [AddonInstallParameters.deserialize, Helper.deserialize, hb, h, Except.isOk,
          Except.toBool]
  · intro hc
    cases h : base64Decode B <;>
      simp [AddonInstallParameters.deserialize, Helper.deserialize, hb, h, hc, Except.isOk,
            Except.toBool]
  · intro hw
    cases h : base64Decode B <;>
      cases hc : env.createOk <;>
        simp [AddonInstallParameters.deserialize, Helper.deserialize, hb, h, hc, hw,
              Except.isOk, Except.toBool]

/-- C2 witness: `{"addon": "aGVsbG8=", "temporary": true}` decodes to the
staged file path with contents `hello` (bytes 104 101 108 108 111), and an
invalid base64 payload fails. -/
theorem addonInstall_base64_resolution_witness :
    AddonInstallParameters.deserialize ⟨"/tmp", "u", true, true⟩
        (.obj (("addon", .str "aGVsbG8=") :: optTempField (some true))) =
      .ok ({ path := tempXpiPath ⟨"/tmp", "u", true, true⟩, temporary := some true },
           [(tempXpiPath ⟨"/tmp", "u", true, true⟩, [104, 101, 108, 108, 111])])
  ∧ (AddonInstallParameters.deserialize ⟨"/tmp", "u", true, true⟩
        (.obj (("addon", .str "!!") :: optTempField none))).isOk = false := by
  constructor
  · exact (addonInstall_base64_resolution ⟨"/tmp", "u", true, true⟩ "aGVsbG8=" (some true)).1
      [104, 101, 108, 108, 111] (by decide) rfl rfl
  · exact (addonInstall_base64_resolution ⟨"/tmp", "u", true, true⟩ "!!" none).2.1 (by decide)

/-- C3: for each payload type, re-encoding a decoded value and decoding that
encoding reproduces an equal value.  For `GeckoContextParameters`,
`XblLocatorParameters`, `AddonUninstallParameters` and
`AddonInstallParameters` this holds for every value of the type (a superset
of the decodable values); for `PrintParameters` it holds for every value
produced by a successful decode. -/
theorem payload_decode_encode_round_trip :
    (∀ p : GeckoContextParameters, GeckoContextParameters.deserialize p.toJson = .ok p)
  ∧ (∀ p : XblLocatorParameters, XblLocatorParameters.deserialize p.toJson = .ok p)
  ∧ (∀ p : AddonUninstallParameters, AddonUninstallParameters.deserialize p.toJson = .ok p)
  ∧ (∀ (p : AddonInstallParameters) (env : IOEnv),
        AddonInstallParameters.deserialize env p.toJson = .ok (p, []))
  ∧ (∀ (j : Json) (p : PrintParameters), PrintParameters.deserialize j = .ok p →
        PrintParameters.deserialize p.toJson = .ok p) := by
  refine ⟨?_, ?_, ?_, ?_, ?_⟩
  · intro ⟨c⟩
    cases c <;> rfl
  · intro ⟨n, w⟩
    rfl
  · intro ⟨i⟩
    rfl
  · intro ⟨p, t⟩ env
    cases t <;> rfl
  · intro j p h
    obtain ⟨⟨hs1, hs2⟩, ⟨hw, hh⟩, ht, hb, hl, hr⟩ := printParameters_ok_bounds j p h
    exact printParameters_encode_decode p hs1 hs2 hw hh ht hb hl hr

/-- C3 witness: a concrete decoded `PrintParameters` value survives the
encode-then-decode round trip. -/
theorem payload_decode_encode_round_trip_witness :
    PrintParameters.deserialize
        (PrintParameters.toJson { printParametersDefault with scale := 3/2 }) =
      .ok { printParametersDefault with scale := 3/2 } := by
  refine payload_decode_encode_round_trip.2.2.2.2 (.obj [("scale", .num (3/2))]) _ ?_
  simp [PrintParameters.deserialize, lookupField,
        print_scale_ok_of_range (3/2) (by norm_num) (by norm_num), printParametersDefault]

/-- C4: the print-scale validator accepts exactly the values in the closed
interval `[0.1, 2]` (decoding `{"scale": v}` then succeeds with `scale = v`
and all other fields at their defaults) and rejects values outside it with an
error naming the value and the valid range; the non-negative validator used
for the page and margin fields accepts every value `≥ 0` and rejects negative
values with an error naming the value. -/
theorem print_scale_and_nonneg_validators :
    (∀ q : Rat, 1/10 ≤ q → q ≤ 2 →
        PrintParameters.deserialize (.obj [("scale", .num q)]) =
          .ok { printParametersDefault with scale := q })
  ∧ (∀ q : Rat, q < 1/10 ∨ 2 < q →
        (PrintParameters.deserialize (.obj [("scale", .num q)])).isOk = false
        ∧ deserialize_to_print_scale_f64 (.num q) =
            .error (toString q ++ " is outside range 0.1-2"))
  ∧ (∀ q : Rat, 0 ≤ q → deserialize_to_positive_f64 (.num q) = .ok q)
  ∧ (∀ q : Rat, q < 0 →
        deserialize_to_positive_f64 (.num q) = .error (toString q ++ " is negative")) := by
  refine ⟨?_, ?_, ?_, ?_⟩
  · intro q h1 h2
    simp [PrintParameters.deserialize, lookupField, print_scale_ok_of_range q h1 h2,
          printParametersDefault]
  · intro q h
    have he : deserialize_to_print_scale_f64 (.num q) =
        .error (toString q ++ " is outside range 0.1-2") := by
      have hc : q < 1/10 ∨ q > 2 := h
      simp only [deserialize_to_print_scale_f64, decodeF64]
      rw [if_pos hc]
    refine ⟨?_, he⟩
    simp [PrintParameters.deserialize, lookupField, he, Except.isOk, Except.toBool]
  · intro q h
    exact positive_f64_ok_of_nonneg q h
  · intro q h
    simp only [deserialize_to_positive_f64, decodeF64]
    rw [if_pos h]

/-- C4 witness: scale 1.5 is accepted with all other defaults, scale 3 is
rejected, 0 passes the non-negative validator and -1 fails it. -/
theorem print_scale_and_nonneg_validators_witness :
    PrintParameters.deserialize (.obj [("scale", .num (3/2))]) =
      .ok { printParametersDefault with scale := 3/2 }
  ∧ (PrintParameters.deserialize (.obj [("scale", .num 3)])).isOk = false
  ∧ deserialize_to_positive_f64 (.num 0) = .ok 0
  ∧ deserialize_to_positive_f64 (.num (-1)) = .error (toString (-1 : Rat) ++ " is negative") := by
  refine ⟨?_, ?_, ?_, ?_⟩
  · exact print_scale_and_nonneg_validators.1 (3/2) (by norm_num) (by norm_num)
  · exact (print_scale_and_nonneg_validators.2.1 3 (by norm_num)).1
  · exact print_scale_and_nonneg_validators.2.2.1 0 le_rfl
  · exact print_scale_and_nonneg_validators.2.2.2 (-1) (by norm_num)

/-- C5: decoding the empty object as `PrintParameters` yields exactly the
documented default value, and nested `page`/`margin` objects merge per-field:
every present non-negative field is taken and every omitted sibling gets its
own default, never an all-or-nothing object default. -/
theorem print_defaults_and_field_merging :
    PrintParameters.deserialize (.obj []) = .ok printParametersDefault
  ∧ printParametersDefault =
      { orientation := .Portrait, scale := 1, background := false,
        page := { width := 2159/100, height := 2794/100 },
        margin := { top := 1, bottom := 1, left := 1, right := 1 },
        page_ranges := [], shrink_to_fit := true }
  ∧ (∀ w h : Option Rat,
        (∀ x, w = some x → 0 ≤ x) → (∀ x, h = some x → 0 ≤ x) →
        PrintPage.deserialize (.obj (optNumField "width" w ++ optNumField "height" h)) =
          .ok { width := w.getD (2159/100), height := h.getD (2794/100) })
  ∧ (∀ t b l r : Option Rat,
        (∀ x, t = some x → 0 ≤ x) → (∀ x, b = some x → 0 ≤ x) →
        (∀ x, l = some x → 0 ≤ x) → (∀ x, r = some x → 0 ≤ x) →
        PrintMargins.deserialize
            (.obj (optNumField "top" t ++ optNumField "bottom" b ++
                   optNumField "left" l ++ optNumField "right" r)) =
          .ok { top := t.getD 1, bottom := b.getD 1, left := l.getD 1, right := r.getD 1 })
  ∧ (∀ w : Rat, 0 ≤ w →
        PrintParameters.deserialize (.obj [("page", .obj [("width", .num w)])]) =
          .ok { printParametersDefault with page := { width := w, height := 2794/100 } }) := by
  refine ⟨rfl, rfl, ?_, ?_, ?_⟩
  · intro w h hw hh
    rcases w with _ | x1 <;> rcases h with _ | x2 <;>
      simp_all [PrintPage.deserialize, lookupField, optNumField,
                positive_f64_ok_of_nonneg, printPageDefault]
  · intro t b l r ht hb hl hr
    rcases t with _ | x1 <;> rcases b with _ | x2 <;> rcases l with _ | x3 <;>
      rcases r with _ | x4 <;>
      simp_all [PrintMargins.deserialize, lookupField, optNumField,
                positive_f64_ok_of_nonneg, printMarginsDefault]
  · intro w hw
    simp [PrintParameters.deserialize, lookupField, PrintPage.deserialize,
          positive_f64_ok_of_nonneg w hw, printParametersDefault, printPageDefault]

/-- C5 witness: `{"page": {"width": 10}}` decodes with the given width and
the default height, all other fields at their defaults. -/
theorem print_defaults_and_field_merging_witness :
    PrintParameters.deserialize (.obj [("page", .obj [("width", .num 10)])]) =
      .ok { printParametersDefault with page := { width := 10, height := 2794/100 } } :=
  print_defaults_and_field_merging.2.2.2.2 10 (by norm_num)

/-- C6: on the `XblAnonymousChildren` and `XblAnonymousByAttribute` routes, a
missing `elementId` path parameter fails with an `InvalidArgument` error whose
message is `Missing elementId parameter`, for every body — so before any body
decoding; with `elementId` present, `XblAnonymousChildren` wraps it as an
element reference ignoring the body, and `XblAnonymousByAttribute` also
requires the body to decode as `XblLocatorParameters`. -/
theorem xbl_element_id_resolution :
    (∀ (params : Parameters) (body : Json) (env : IOEnv),
        params.get "elementId" = none →
        GeckoExtensionRoute.command .XblAnonymousChildren params body env =
          .error { error := .InvalidArgument, message := "Missing elementId parameter" }
        ∧ GeckoExtensionRoute.command .XblAnonymousByAttribute params body env =
          .error { error := .InvalidArgument, message := "Missing elementId parameter" })
  ∧ (∀ (params : Parameters) (body : Json) (env : IOEnv) (eid : String),
        params.get "elementId" = some eid →
        GeckoExtensionRoute.command .XblAnonymousChildren params body env =
          .ok (.Extension (.XblAnonymousChildren { id := eid })))
  ∧ (∀ (params : Parameters) (body : Json) (env : IOEnv) (eid : String)
        (l : XblLocatorParameters),
        params.get "elementId" = some eid →
        XblLocatorParameters.deserialize body = .ok l →
        GeckoExtensionRoute.command .XblAnonymousByAttribute params body env =
          .ok (.Extension (.XblAnonymousByAttribute { id := eid } l)))
  ∧ (∀ (params : Parameters) (body : Json) (env : IOEnv) (eid : String) (e : String),
        params.get "elementId" = some eid →
        XblLocatorParameters.deserialize body = .error e →
        GeckoExtensionRoute.command .XblAnonymousByAttribute params body env =
          .error { error := .InvalidArgument, message := e }) := by
  refine ⟨?_, ?_, ?_, ?_⟩
  · intro params body env h
    constructor <;> simp [GeckoExtensionRoute.command, h]
  · intro params body env eid h
    simp [GeckoExtensionRoute.command, h]
  · intro params body env eid l h hl
    simp [GeckoExtensionRoute.command, h, hl]
  · intro params body env eid e h he
    simp [GeckoExtensionRoute.command, h, he]

/-- C6 witness: with no path parameters and an undecodable body, both Xbl
routes fail with the `Missing elementId parameter` error, and with the
parameter present `XblAnonymousChildren` succeeds on the same body. -/
theorem xbl_element_id_resolution_witness :
    GeckoExtensionRoute.command .XblAnonymousChildren [] .null ⟨"/tmp", "u", true, true⟩ =
      .error { error := .InvalidArgument, message := "Missing elementId parameter" }
  ∧ GeckoExtensionRoute.command .XblAnonymousByAttribute [] .null ⟨"/tmp", "u", true, true⟩ =
      .error { error := .InvalidArgument, message := "Missing elementId parameter" }
  ∧ GeckoExtensionRoute.command .XblAnonymousChildren [("elementId", "abc")] .null
        ⟨"/tmp", "u", true, true⟩ =
      .ok (.Extension (.XblAnonymousChildren { id := "abc" })) := by
  refine ⟨?_, ?_, ?_⟩
  · exact (xbl_element_id_resolution.1 [] .null ⟨"/tmp", "u", true, true⟩ rfl).1
  · exact (xbl_element_id_resolution.1 [] .null ⟨"/tmp", "u", true, true⟩ rfl).2
  · exact xbl_element_id_resolution.2.1 [("elementId", "abc")] .null
      ⟨"/tmp", "u", true, true⟩ "abc" rfl

/-- C7: the serializer returns a JSON payload exactly for `SetContext`,
`InstallAddon`, `UninstallAddon`, `XblAnonymousByAttribute` (the locator only,
never the element reference) and `Print`, and no payload for `GetContext`,
`XblAnonymousChildren` and `TakeFullScreenshot`. -/
theorem parameters_json_payload_presence :
    GeckoExtensionCommand.GetContext.parameters_json = .ok none
  ∧ (∀ p, (GeckoExtensionCommand.SetContext p).parameters_json = .ok (some p.toJson))
  ∧ (∀ p, (GeckoExtensionCommand.InstallAddon p).parameters_json = .ok (some p.toJson))
  ∧ (∀ p, (GeckoExtensionCommand.UninstallAddon p).parameters_json = .ok (some p.toJson))
  ∧ (∀ e l, (GeckoExtensionCommand.XblAnonymousByAttribute e l).parameters_json =
        .ok (some l.toJson))
  ∧ (∀ p, (GeckoExtensionCommand.Print p).parameters_json = .ok (some p.toJson))
  ∧ (∀ e, (GeckoExtensionCommand.XblAnonymousChildren e).parameters_json = .ok none)
  ∧ GeckoExtensionCommand.TakeFullScreenshot.parameters_json = .ok none := by
  exact ⟨rfl, fun _ => rfl, fun _ => rfl, fun _ => rfl, fun _ _ => rfl, fun _ => rfl,
         fun _ => rfl, rfl⟩

/-- C9: for every resolved command, `parameters_json` returns without
panicking — the internal serialization of every payload type succeeds, so the
`unwrap` never hits an error value. -/
theorem parameters_json_never_panics :
    ∀ cmd : GeckoExtensionCommand, ∃ r, cmd.parameters_json = .ok r := by
  intro cmd
  cases cmd <;> exact ⟨_, rfl⟩

theorem geckoContext_str_other (s : String) (h1 : s ≠ "content") (h2 : s ≠ "chrome") :
    GeckoContext.deserialize (.str s) = .error "unknown variant of GeckoContext" := by
  unfold GeckoContext.deserialize
  split
  · rename_i heq
    simp at heq
    exact absurd heq h1
  · rename_i heq
    simp at heq
    exact absurd heq h2
  · rfl
  · rename_i hno
    exact absurd rfl (hno s)

theorem geckoContext_ok_inv (v : Json) (c : GeckoContext)
    (h : GeckoContext.deserialize v = .ok c) :
    (v = .str "content" ∧ c = .Content) ∨ (v = .str "chrome" ∧ c = .Chrome) := by
  unfold GeckoContext.deserialize at h
  split at h
  · rw [Except.ok.injEq] at h
    subst h
    left
    exact ⟨rfl, rfl⟩
  · rw [Except.ok.injEq] at h
    subst h
    right
    exact ⟨rfl, rfl⟩
  · simp at h
  · simp at h

/-- C8: decoding `GeckoContextParameters` succeeds exactly when the input is
a JSON object whose `context` key holds the string `content` (giving
`Content`) or `chrome` (giving `Chrome`); any other string, a `null` value,
or an absent `context` key fails. -/
theorem gecko_context_parameters_decode :
    (∀ fields, lookupField fields "context" = some (.str "content") →
        GeckoContextParameters.deserialize (.obj fields) = .ok { context := .Content })
  ∧ (∀ fields, lookupField fields "context" = some (.str "chrome") →
        GeckoContextParameters.deserialize (.obj fields) = .ok { context := .Chrome })
  ∧ (∀ fields s, s ≠ "content" → s ≠ "chrome" →
        lookupField fields "context" = some (.str s) →
        (GeckoContextParameters.deserialize (.obj fields)).isOk = false)
  ∧ (∀ fields, lookupField fields "context" = some .null →
        (GeckoContextParameters.deserialize (.obj fields)).isOk = false)
  ∧ (∀ fields, lookupField fields "context" = none →
        (GeckoContextParameters.deserialize (.obj fields)).isOk = false)
  ∧ (∀ j p, GeckoContextParameters.deserialize j = .ok p →
        ∃ fields, j = .obj fields ∧
          ((lookupField fields "context" = some (.str "content") ∧ p = { context := .Content })
           ∨ (lookupField fields "context" = some (.str "chrome") ∧ p = { context := .Chrome }))) := by
  refine ⟨?_, ?_, ?_, ?_, ?_, ?_⟩
  · intro fields h
    simp [GeckoContextParameters.deserialize, h, GeckoContext.deserialize]
  · intro fields h
    simp [GeckoContextParameters.deserialize, h, GeckoContext.deserialize]
  · intro fields s h1 h2 h
    simp [GeckoContextParameters.deserialize, h, geckoContext_str_other s h1 h2,
          Except.isOk, Except.toBool]
  · intro fields h
    simp [GeckoContextParameters.deserialize, h, GeckoContext.deserialize,
          Except.isOk, Except.toBool]
  · intro fields h
    simp [GeckoContextParameters.deserialize, h, Except.isOk, Except.toBool]
  · intro j p h
    cases j with
    | obj fields =>
      refine ⟨fields, rfl, ?_⟩
      simp only [GeckoContextParameters.deserialize] at h
      split at h
      · rename_i cv hcv
        split at h
        · simp at h
        · rename_i c hc
          rw [Except.ok.injEq] at h
          subst h
          rcases geckoContext_ok_inv cv c hc with ⟨hv, hc2⟩ | ⟨hv, hc2⟩
          · left
            subst hv hc2
            exact ⟨hcv, rfl⟩
          · right
            subst hv hc2
            exact ⟨hcv, rfl⟩
      · simp at h
    | null => simp [GeckoContextParameters.deserialize] at h
    | bool b => simp [GeckoContextParameters.deserialize] at h
    | num q => simp [GeckoContextParameters.deserialize] at h
    | str s => simp [GeckoContextParameters.deserialize] at h
    | arr l => simp [GeckoContextParameters.deserialize] at h

/-- C8 witness: the two valid tokens decode, and a wrong token, `null`, and
the empty object fail. -/
theorem gecko_context_parameters_decode_witness :
    GeckoContextParameters.deserialize (.obj [("context", .str "content")]) =
      .ok { context := .Content }
  ∧ GeckoContextParameters.deserialize (.obj [("context", .str "chrome")]) =
      .ok { context := .Chrome }
  ∧ (GeckoContextParameters.deserialize (.obj [("context", .str "foo")])).isOk = false
  ∧ (GeckoContextParameters.deserialize (.obj [("context", .null)])).isOk = false
  ∧ (GeckoContextParameters.deserialize (.obj [])).isOk = false := by
  refine ⟨?_, ?_, ?_, ?_, ?_⟩
  · exact gecko_context_parameters_decode.1 [("context", .str "content")] rfl
  · exact gecko_context_parameters_decode.2.1 [("context", .str "chrome")] rfl
  · exact gecko_context_parameters_decode.2.2.1 [("context", .str "foo")] "foo"
      (by decide) (by decide) rfl
  · exact gecko_context_parameters_decode.2.2.2.1 [("context", .null)] rfl
  · exact gecko_context_parameters_decode.2.2.2.2.1 [] rfl

/-- C10: only the two strict `AddonInstallParameters` input shapes reject
unknown JSON fields: appending an unrecognized key leaves the decode result
of `GeckoContextParameters`, `XblLocatorParameters`,
`AddonUninstallParameters`, `PrintParameters` and its nested `PrintPage` and
`PrintMargins` objects unchanged, whereas appending an unrecognized key to
any `AddonInstallParameters` input makes decoding fail. -/
theorem unknown_field_handling :
    (∀ fields k jv, k ≠ "context" →
        GeckoContextParameters.deserialize (.obj (fields ++ [(k, jv)])) =
          GeckoContextParameters.deserialize (.obj fields))
  ∧ (∀ fields k jv, k ≠ "name" → k ≠ "value" →
        XblLocatorParameters.deserialize (.obj (fields ++ [(k, jv)])) =
          XblLocatorParameters.deserialize (.obj fields))
  ∧ (∀ fields k jv, k ≠ "id" →
        AddonUninstallParameters.deserialize (.obj (fields ++ [(k, jv)])) =
          AddonUninstallParameters.deserialize (.obj fields))
  ∧ (∀ fields k jv, k ≠ "orientation" → k ≠ "scale" → k ≠ "background" →
        k ≠ "page" → k ≠ "margin" → k ≠ "pageRanges" → k ≠ "shrinkToFit" →
        PrintParameters.deserialize (.obj (fields ++ [(k, jv)])) =
          PrintParameters.deserialize (.obj fields))
  ∧ (∀ fields k jv, k ≠ "width" → k ≠ "height" →
        PrintPage.deserialize (.obj (fields ++ [(k, jv)])) =
          PrintPage.deserialize (.obj fields))
  ∧ (∀ fields k jv, k ≠ "top" → k ≠ "bottom" → k ≠ "left" → k ≠ "right" →
        PrintMargins.deserialize (.obj (fields ++ [(k, jv)])) =
          PrintMargins.deserialize (.obj fields))
  ∧ (∀ (env : IOEnv) fields k jv, k ≠ "path" → k ≠ "addon" → k ≠ "temporary" →
        (AddonInstallParameters.deserialize env (.obj (fields ++ [(k, jv)]))).isOk = false) := by
  refine ⟨?_, ?_, ?_, ?_, ?_, ?_, ?_⟩
  · intro fields k jv hk
    simp only [GeckoContextParameters.deserialize]
    rw [lookupField_append_ne fields k jv "context" (Ne.symm hk)]
  · intro fields k jv hk1 hk2
    simp only [XblLocatorParameters.deserialize]
    rw [lookupField_append_ne fields k jv "name" (Ne.symm hk1),
        lookupField_append_ne fields k jv "value" (Ne.symm hk2)]
  · intro fields k jv hk
    simp only [AddonUninstallParameters.deserialize]
    rw [lookupField_append_ne fields k jv "id" (Ne.symm hk)]
  · intro fields k jv h1 h2 h3 h4 h5 h6 h7
    simp only [PrintParameters.deserialize]
    rw [lookupField_append_ne fields k jv "orientation" (Ne.symm h1),
        lookupField_append_ne fields k jv "scale" (Ne.symm h2),
        lookupField_append_ne fields k jv "background" (Ne.symm h3),
        lookupField_append_ne fields k jv "page" (Ne.symm h4),
        lookupField_append_ne fields k jv "margin" (Ne.symm h5),
        lookupField_append_ne fields k jv "pageRanges" (Ne.symm h6),
        lookupField_append_ne fields k jv "shrinkToFit" (Ne.symm h7)]
  · intro fields k jv h1 h2
    simp only [PrintPage.deserialize]
    rw [lookupField_append_ne fields k jv "width" (Ne.symm h1),
        lookupField_append_ne fields k jv "height" (Ne.symm h2)]
  · intro fields k jv h1 h2 h3 h4
    simp only [PrintMargins.deserialize]
    rw [lookupField_append_ne fields k jv "top" (Ne.symm h1),
        lookupField_append_ne fields k jv "bottom" (Ne.symm h2),
        lookupField_append_ne fields k jv "left" (Ne.symm h3),
        lookupField_append_ne fields k jv "right" (Ne.symm h4)]
  · intro env fields k jv h1 h2 h3
    have hbk : base64KeyOk k = false := by
      simp [base64KeyOk]
      exact ⟨h2, h3⟩
    have hpk : pathKeyOk k = false := by
      simp [pathKeyOk]
      exact ⟨h1, h3⟩
    apply addonInstall_err_of_helpers
    · refine ⟨"unknown field", base64Helper_err_of_allKeys_false _ ?_⟩
      rw [allKeys_append_single]
      simp [hbk]
    · refine ⟨"unknown field", pathHelper_err_of_allKeys_false _ ?_⟩
      rw [allKeys_append_single]
      simp [hpk]

/-- C10 witness: an extra key is ignored by the context decoder but makes an
otherwise valid add-on install input fail. -/
theorem unknown_field_handling_witness :
    GeckoContextParameters.deserialize
        (.obj ([("context", .str "content")] ++ [("extra", .null)])) =
      GeckoContextParameters.deserialize (.obj [("context", .str "content")])
  ∧ (AddonInstallParameters.deserialize ⟨"/tmp", "u", true, true⟩
        (.obj ([("path", .str "/path/to.xpi")] ++ [("extra", .null)]))).isOk = false := by
  constructor
  · exact unknown_field_handling.1 [("context", .str "content")] "extra" .null (by decide)
  · exact unknown_field_handling.2.2.2.2.2.2 ⟨"/tmp", "u", true, true⟩
      [("path", .str "/path/to.xpi")] "extra" .null (by decide) (by decide) (by decide)
